import Mathlib

/-!
# PolyglotLab – Smart Translator & Learning Studio: core embedding

A shallow embedding of the orchestration layer of `src/app.py`:
the language registry (`LANG_CODES`), the static model support matrix
(`MODEL_MAP`), the lazy pipeline cache (`_translation_pipelines` /
`get_translation_pipeline`), the style-hint composer
(`_apply_style_hints`), and the two translation entry points
(`translate_text`, `back_translate`).

External capabilities are parameters:
* `load : String → String → Pipeline` models the transformers
  `pipeline(task, model=model_name)` constructor;
* `run : Pipeline → String → String` models invoking a loaded pipeline on
  an input string and extracting `out[0]["translation_text"]`.

Python exceptions that can escape an entry point are modelled with an
explicit error type (`PyErr`); stateful functions take and return the
module-level cache explicitly.
-/

/-- Opaque handle to a loaded transformers pipeline, identified by the task
string and model name it was constructed from. -/
structure Pipeline where
  task : String
  modelName : String
deriving DecidableEq

/-- A Python exception escaping an entry point: `LANG_CODES[name]` raises
`KeyError(name)` when `name` is not a key of the dictionary. -/
inductive PyErr where
  | keyError (key : String)
deriving DecidableEq

deriving instance DecidableEq for Except

/-- Python's `str.strip()` on the underlying character list: drop leading and
trailing whitespace. -/
def stripChars (s : List Char) : List Char :=
  ((s.dropWhile Char.isWhitespace).reverse.dropWhile Char.isWhitespace).reverse

/-- Python's `text.strip()`. -/
def pyStrip (s : String) : String := ⟨stripChars s.data⟩

/-- `LANG_CODES`: display name → language code (a Python dict, embedded as an
association list with pairwise distinct keys). -/
def LANG_CODES : List (String × String) :=
  [("English", "en"),
   ("French", "fr"),
   ("German", "de"),
   ("Spanish", "es"),
   ("Swedish", "sv")]

/-- `MODEL_MAP`: (src code, tgt code) → MarianMT model name. -/
def MODEL_MAP : List ((String × String) × String) :=
  [(("en", "fr"), "Helsinki-NLP/opus-mt-en-fr"),
   (("fr", "en"), "Helsinki-NLP/opus-mt-fr-en"),
   (("en", "de"), "Helsinki-NLP/opus-mt-en-de"),
   (("de", "en"), "Helsinki-NLP/opus-mt-de-en"),
   (("en", "es"), "Helsinki-NLP/opus-mt-en-es"),
   (("es", "en"), "Helsinki-NLP/opus-mt-es-en"),
   (("en", "sv"), "Helsinki-NLP/opus-mt-en-sv"),
   (("sv", "en"), "Helsinki-NLP/opus-mt-sv-en")]

/-- The module-level mutable state: `_translation_pipelines` (the lazy cache
dict), together with `loadLog`, an instrumentation log recording every
invocation of the external `pipeline(...)` load side effect in order (the
spec's "load-counting stub capability"); the Python module holds only the
dict, and `loadLog` is write-only bookkeeping that no embedded function
reads. -/
structure CacheState where
  pipelines : List ((String × String) × Pipeline)
  loadLog : List (String × String)
deriving DecidableEq

/-- The state at process start: `_translation_pipelines = {}`, nothing
loaded yet. -/
def initCache : CacheState := ⟨[], []⟩

/-- `get_translation_pipeline(src_code, tgt_code)`: raises
`ValueError(f"Language pair {src_code}->{tgt_code} not supported yet.")`
when the pair is not in `MODEL_MAP` (modelled as `.error` carrying the
message, with the state returned unchanged since the raise happens before
any cache write); otherwise loads the pipeline on first use, stores it in
the cache, and returns the cached pipeline. -/
def get_translation_pipeline (load : String → String → Pipeline)
    (st : CacheState) (src_code tgt_code : String) :
    Except String Pipeline × CacheState :=
  let key := (src_code, tgt_code)
  match MODEL_MAP.lookup key with
  | none =>
    (.error ("Language pair " ++ src_code ++ "->" ++ tgt_code ++ " not supported yet."), st)
  | some model_name =>
    match st.pipelines.lookup key with
    | some p => (.ok p, st)
    | none =>
      let task := "translation_" ++ src_code ++ "_to_" ++ tgt_code
      let p := load task model_name
      (.ok p, ⟨(key, p) :: st.pipelines, st.loadLog ++ [key]⟩)

/-- `_apply_style_hints(text, tone, domain, tgt_lang)`: prepend a bracketed
hint prefix when tone or domain deviates from the defaults. -/
def _apply_style_hints (text tone domain tgt_lang : String) : String :=
  let hints : List String :=
    (if domain ≠ "General" then [domain ++ " context"] else []) ++
    (if tone ≠ "Neutral" then [tone ++ " tone"] else [])
  if hints.isEmpty then text
  else
    let hint_str := String.intercalate ", " hints
    "[" ++ hint_str ++ " in " ++ tgt_lang ++ "] " ++ text

/-- `translate_text(text, src_lang, tgt_lang, tone, domain)`.
`LANG_CODES[src_lang]` / `LANG_CODES[tgt_lang]` raise `KeyError` for names
outside the registry; only the `ValueError` from
`get_translation_pipeline` is caught (and rendered as the result string).
Returns the result (or escaped exception) together with the cache state
after the call. -/
def translate_text (run : Pipeline → String → String)
    (load : String → String → Pipeline) (st : CacheState)
    (text src_lang tgt_lang tone domain : String) :
    Except PyErr String × CacheState :=
  let text := pyStrip text
  if text = "" then (.ok "Please enter some text to translate.", st)
  else if src_lang = tgt_lang then (.ok text, st)
  else
    match LANG_CODES.lookup src_lang with
    | none => (.error (.keyError src_lang), st)
    | some src_code =>
      match LANG_CODES.lookup tgt_lang with
      | none => (.error (.keyError tgt_lang), st)
      | some tgt_code =>
        match get_translation_pipeline load st src_code tgt_code with
        | (.error e, st') => (.ok e, st')
        | (.ok translator, st') =>
          let styled_input := _apply_style_hints text tone domain tgt_lang
          let translated := run translator styled_input
          (.ok (pyStrip translated), st')

/-- `back_translate(text, src_lang, tgt_lang, tone, domain)`: forward leg
with the caller's hints, backward leg with `"Neutral"`/`"General"`; an
exception raised by either leg propagates. -/
def back_translate (run : Pipeline → String → String)
    (load : String → String → Pipeline) (st : CacheState)
    (text src_lang tgt_lang tone domain : String) :
    Except PyErr (String × String) × CacheState :=
  let text := pyStrip text
  if text = "" then (.ok ("Please enter some text to translate.", ""), st)
  else if src_lang = tgt_lang then (.ok (text, text), st)
  else
    match translate_text run load st text src_lang tgt_lang tone domain with
    | (.error e, st₁) => (.error e, st₁)
    | (.ok forward, st₁) =>
      match translate_text run load st₁ forward tgt_lang src_lang "Neutral" "General" with
      | (.error e, st₂) => (.error e, st₂)
      | (.ok backward, st₂) => (.ok (forward, backward), st₂)

/-- A concrete loader stub for closed witnesses and counterexamples. -/
def loadStub : String → String → Pipeline := fun t m => ⟨t, m⟩

/-- A concrete pipeline-invocation stub (echoes its input) for closed
witnesses and counterexamples. -/
def runStub : Pipeline → String → String := fun _ s => s

/-- Well-formed cache: every cached pipeline is exactly what the loader
produces for that key's task string and `MODEL_MAP` model name — true of
every state reachable from `initCache`, since `get_translation_pipeline`
stores nothing else. -/
def WFCache (load : String → String → Pipeline) (st : CacheState) : Prop :=
  ∀ sc tc p, st.pipelines.lookup (sc, tc) = some p →
    ∃ m, MODEL_MAP.lookup (sc, tc) = some m ∧
      p = load ("translation_" ++ sc ++ "_to_" ++ tc) m

/-- The state-independent value component of `get_translation_pipeline`. -/
def resolvePipeline (load : String → String → Pipeline) (sc tc : String) :
    Except String Pipeline :=
  match MODEL_MAP.lookup (sc, tc) with
  | none => .error ("Language pair " ++ sc ++ "->" ++ tc ++ " not supported yet.")
  | some m => .ok (load ("translation_" ++ sc ++ "_to_" ++ tc) m)

/-- The state-independent value component of `translate_text` (what the call
returns from any well-formed cache state). -/
def translateResult (run : Pipeline → String → String)
    (load : String → String → Pipeline)
    (text src_lang tgt_lang tone domain : String) : Except PyErr String :=
  let text := pyStrip text
  if text = "" then .ok "Please enter some text to translate."
  else if src_lang = tgt_lang then .ok text
  else
    match LANG_CODES.lookup src_lang with
    | none => .error (.keyError src_lang)
    | some src_code =>
      match LANG_CODES.lookup tgt_lang with
      | none => .error (.keyError tgt_lang)
      | some tgt_code =>
        match resolvePipeline load src_code tgt_code with
        | .error e => .ok e
        | .ok translator =>
          .ok (pyStrip (run translator (_apply_style_hints text tone domain tgt_lang)))

/-- Cache lifetime invariant for load counting: each pair's load side effect
has happened at most once, and a pair that has been loaded is cached. -/
def CacheInv (st : CacheState) : Prop :=
  ∀ k : String × String, st.loadLog.count k ≤ 1 ∧
    (0 < st.loadLog.count k → (st.pipelines.lookup k).isSome = true)

/-- Every key present in the pipeline cache is a key of `MODEL_MAP`. -/
def CacheKeysSupported (st : CacheState) : Prop :=
  ∀ k : String × String,
    (st.pipelines.lookup k).isSome = true → (MODEL_MAP.lookup k).isSome = true

/-- The empty cache is well formed. -/
theorem wfCache_init (load : String → String → Pipeline) : WFCache load initCache :=
  fun _ _ _ h => nomatch h

/-- The empty cache satisfies the load-count invariant. -/
theorem cacheInv_init : CacheInv initCache :=
  fun _ => ⟨by simp [initCache], by simp [initCache]⟩

/-- The empty cache only holds supported keys (vacuously). -/
theorem cacheKeysSupported_init : CacheKeysSupported initCache :=
  fun _ h => nomatch h

/-- C8: with the default hints "Neutral"/"General", `_apply_style_hints` is
the identity on the text, for every text and every target-language name. -/
theorem style_hints_neutral_id (text tgt_lang : String) :
    _apply_style_hints text "Neutral" "General" tgt_lang = text := by
  simp [_apply_style_hints]

/-- C1 (amended): when the trimmed text is non-empty and source and target
language names coincide (any names, any tone/domain), `translate_text`
returns the trimmed input (`text.strip()`, so the input itself whenever it
carries no surrounding whitespace) and leaves the cache untouched — no
model call. -/
theorem translate_identity_trimmed (run : Pipeline → String → String)
    (load : String → String → Pipeline) (st : CacheState)
    (text L tone domain : String) (hne : pyStrip text ≠ "") :
    translate_text run load st text L L tone domain = (.ok (pyStrip text), st) := by
  unfold translate_text
  simp [hne]

/-- C1 counterexample: `translate_text` does not return the input exactly
unchanged on a same-language call — leading/trailing whitespace is
stripped first. -/
theorem translate_identity_counterexample :
    (translate_text runStub loadStub initCache "  hi  " "English" "English"
        "Neutral" "General").1 ≠ .ok "  hi  " := by decide

/-- C1 witness: on already-trimmed non-empty text the identity short-circuit
returns the input exactly, for an arbitrary language name. -/
theorem translate_identity_trimmed_witness :
    pyStrip "hello" ≠ "" ∧
    translate_text runStub loadStub initCache "hello" "Esperanto" "Esperanto"
        "Formal" "Business" = (.ok (pyStrip "hello"), initCache) :=
  ⟨by decide,
   translate_identity_trimmed runStub loadStub initCache "hello" "Esperanto"
     "Formal" "Business" (by decide)⟩

/-- C6: whenever the text strips to the empty string (so for `""` and for
whitespace-only input alike), `translate_text` returns the fixed prompt
message, for every choice of languages, tone and domain, without touching
the cache. -/
theorem translate_empty_input (run : Pipeline → String → String)
    (load : String → String → Pipeline) (st : CacheState)
    (text src_lang tgt_lang tone domain : String) (h : pyStrip text = "") :
    translate_text run load st text src_lang tgt_lang tone domain =
      (.ok "Please enter some text to translate.", st) := by
  unfold translate_text
  simp [h]

/-- C6 witness: both the empty string and a whitespace-only string produce
the fixed prompt message. -/
theorem translate_empty_input_witness :
    pyStrip "" = "" ∧ pyStrip "   " = "" ∧
    translate_text runStub loadStub initCache "" "English" "French"
        "Formal" "Business" = (.ok "Please enter some text to translate.", initCache) ∧
    translate_text runStub loadStub initCache "   " "German" "Spanish"
        "Informal" "Technical" = (.ok "Please enter some text to translate.", initCache) :=
  ⟨by decide, by decide,
   translate_empty_input runStub loadStub initCache "" "English" "French"
     "Formal" "Business" (by decide),
   translate_empty_input runStub loadStub initCache "   " "German" "Spanish"
     "Informal" "Technical" (by decide)⟩

/-- C7 counterexample: on empty input `back_translate` does not return the
prompt message twice — the backward placeholder is the empty string. -/
theorem back_translate_empty_counterexample :
    (back_translate runStub loadStub initCache "" "English" "French"
        "Neutral" "General").1 ≠
      .ok ("Please enter some text to translate.",
           "Please enter some text to translate.") := by decide

/-- C7 (amended): on empty or whitespace-only text, `back_translate` returns
the fixed prompt message as the forward placeholder and the empty string
(not the message again) as the backward placeholder, for every choice of
languages, tone and domain. -/
theorem back_translate_empty_input (run : Pipeline → String → String)
    (load : String → String → Pipeline) (st : CacheState)
    (text src_lang tgt_lang tone domain : String) (h : pyStrip text = "") :
    back_translate run load st text src_lang tgt_lang tone domain =
      (.ok ("Please enter some text to translate.", ""), st) := by
  unfold back_translate
  simp [h]

/-- C7 witness: concrete empty-input back-translation. -/
theorem back_translate_empty_input_witness :
    pyStrip " " = "" ∧
    back_translate runStub loadStub initCache " " "English" "German"
        "Formal" "Casual" = (.ok ("Please enter some text to translate.", ""), initCache) :=
  ⟨by decide,
   back_translate_empty_input runStub loadStub initCache " " "English" "German"
     "Formal" "Casual" (by decide)⟩

/-- C2 counterexample: an unregistered source-language name makes
`translate_text` propagate a `KeyError` fault to the caller instead of
returning a message string. -/
theorem unknown_language_counterexample :
    (translate_text runStub loadStub initCache "hello" "Klingon" "French"
        "Neutral" "General").1 = .error (.keyError "Klingon") ∧
    (translate_text runStub loadStub initCache "hello" "Klingon" "French"
        "Neutral" "General").1.isOk = false := by decide

/-- C2 (amended): for non-empty trimmed text and distinct language names, a
source name outside `LANG_CODES` makes `translate_text` raise
`KeyError(src_lang)`, and a registered source with an unregistered target
raises `KeyError(tgt_lang)`: only the pipeline-resolution `ValueError` is
converted to a message, the registry `KeyError` is not caught. -/
theorem unknown_language_key_error (run : Pipeline → String → String)
    (load : String → String → Pipeline) (st : CacheState)
    (text src_lang tgt_lang tone domain : String)
    (hne : pyStrip text ≠ "") (hdiff : src_lang ≠ tgt_lang) :
    (LANG_CODES.lookup src_lang = none →
      translate_text run load st text src_lang tgt_lang tone domain =
        (.error (.keyError src_lang), st)) ∧
    (∀ c, LANG_CODES.lookup src_lang = some c → LANG_CODES.lookup tgt_lang = none →
      translate_text run load st text src_lang tgt_lang tone domain =
        (.error (.keyError tgt_lang), st)) := by
  constructor
  · intro h
    unfold translate_text
    simp [hne, hdiff, h]
  · intro c hc h
    unfold translate_text
    simp [hne, hdiff, hc, h]

/-- C2 witness: unknown source name and unknown target name both raise. -/
theorem unknown_language_key_error_witness :
    pyStrip "hi" ≠ "" ∧ ("Klingon" : String) ≠ "French" ∧
    LANG_CODES.lookup "Klingon" = none ∧
    translate_text runStub loadStub initCache "hi" "Klingon" "French"
        "Formal" "Business" = (.error (.keyError "Klingon"), initCache) :=
  ⟨by decide, by decide, by decide,
   (unknown_language_key_error runStub loadStub initCache "hi" "Klingon" "French"
     "Formal" "Business" (by decide) (by decide)).1 (by decide)⟩

/-- C4: a code pair absent from `MODEL_MAP` makes `get_translation_pipeline`
fail with the unsupported-pair `ValueError`, and `translate_text` (for
registered, distinct language names mapping to that pair and non-empty
text) returns that message as its displayed result instead of raising,
leaving the cache unchanged in both cases. -/
theorem unsupported_pair_message (run : Pipeline → String → String)
    (load : String → String → Pipeline) (st : CacheState)
    (text src_lang tgt_lang tone domain sc tc : String)
    (hne : pyStrip text ≠ "") (hdiff : src_lang ≠ tgt_lang)
    (hs : LANG_CODES.lookup src_lang = some sc)
    (ht : LANG_CODES.lookup tgt_lang = some tc)
    (hun : MODEL_MAP.lookup (sc, tc) = none) :
    get_translation_pipeline load st sc tc =
      (.error ("Language pair " ++ sc ++ "->" ++ tc ++ " not supported yet."), st) ∧
    translate_text run load st text src_lang tgt_lang tone domain =
      (.ok ("Language pair " ++ sc ++ "->" ++ tc ++ " not supported yet."), st) := by
  have hgp : get_translation_pipeline load st sc tc =
      (.error ("Language pair " ++ sc ++ "->" ++ tc ++ " not supported yet."), st) := by
    unfold get_translation_pipeline
    simp [hun]
  refine ⟨hgp, ?_⟩
  unfold translate_text
  simp [hne, hdiff, hs, ht, hgp]

/-- C4 witness: French→German is a registered language pair with no model;
the call yields the displayable message. -/
theorem unsupported_pair_message_witness :
    pyStrip "Hello" ≠ "" ∧ ("French" : String) ≠ "German" ∧
    LANG_CODES.lookup "French" = some "fr" ∧
    LANG_CODES.lookup "German" = some "de" ∧
    MODEL_MAP.lookup ("fr", "de") = none ∧
    (get_translation_pipeline loadStub initCache "fr" "de" =
      (.error ("Language pair " ++ "fr" ++ "->" ++ "de" ++ " not supported yet."), initCache) ∧
    translate_text runStub loadStub initCache "Hello" "French" "German"
        "Neutral" "General" =
      (.ok ("Language pair " ++ "fr" ++ "->" ++ "de" ++ " not supported yet."), initCache)) :=
  ⟨by decide, by decide, by decide, by decide, by decide,
   unsupported_pair_message runStub loadStub initCache "Hello" "French" "German"
     "Neutral" "General" "fr" "de" (by decide) (by decide) (by decide) (by decide)
     (by decide)⟩

/-- C9: when tone or domain is non-default, `_apply_style_hints` prepends a
bracketed prefix `[<hint> in <targetLanguageName>] ` to the original text,
where the hint holds the `<domain> context` clause and/or the
`<tone> tone` clause exactly for the non-default axes (so the hint content
always precedes the original text). -/
theorem style_hint_composition (text tone domain tgt_lang : String)
    (h : domain ≠ "General" ∨ tone ≠ "Neutral") :
    ∃ hint : String,
      _apply_style_hints text tone domain tgt_lang =
        "[" ++ hint ++ " in " ++ tgt_lang ++ "] " ++ text ∧
      ((domain = "General" ∧ tone ≠ "Neutral" ∧ hint = tone ++ " tone") ∨
       (domain ≠ "General" ∧ tone = "Neutral" ∧ hint = domain ++ " context") ∨
       (domain ≠ "General" ∧ tone ≠ "Neutral" ∧
         hint = domain ++ " context" ++ ", " ++ tone ++ " tone")) := by
  by_cases hd : domain = "General" <;> by_cases ht : tone = "Neutral"
  · cases h with
    | inl h => exact absurd hd h
    | inr h => exact absurd ht h
  · refine ⟨tone ++ " tone", ?_, .inl ⟨hd, ht, rfl⟩⟩
    simp [_apply_style_hints, hd, ht, String.intercalate, String.intercalate.go]
  · refine ⟨domain ++ " context", ?_, .inr (.inl ⟨hd, ht, rfl⟩)⟩
    simp [_apply_style_hints, hd, ht, String.intercalate, String.intercalate.go]
  · refine ⟨domain ++ " context" ++ ", " ++ tone ++ " tone", ?_,
      .inr (.inr ⟨hd, ht, rfl⟩)⟩
    simp [_apply_style_hints, hd, ht, String.intercalate, String.intercalate.go,
      String.append_assoc]

/-- C9 witness: the spec's concrete instance, with both clauses present and
the hint content preceding the original text. -/
theorem style_hint_composition_witness :
    (("Business" : String) ≠ "General" ∨ ("Formal" : String) ≠ "Neutral") ∧
    (∃ hint : String,
      _apply_style_hints "Hi" "Formal" "Business" "French" =
        "[" ++ hint ++ " in " ++ "French" ++ "] " ++ "Hi" ∧
      ((("Business" : String) = "General" ∧ ("Formal" : String) ≠ "Neutral" ∧
          hint = "Formal" ++ " tone") ∨
       (("Business" : String) ≠ "General" ∧ ("Formal" : String) = "Neutral" ∧
          hint = "Business" ++ " context") ∨
       (("Business" : String) ≠ "General" ∧ ("Formal" : String) ≠ "Neutral" ∧
          hint = "Business" ++ " context" ++ ", " ++ "Formal" ++ " tone"))) :=
  ⟨.inl (by decide),
   style_hint_composition "Hi" "Formal" "Business" "French" (.inl (by decide))⟩

/-- C3: from any state satisfying the cache invariant, every call to
`get_translation_pipeline` preserves the invariant (each pair loaded at
most once over the process lifetime); and for a supported pair not yet
cached, the first call performs exactly one load and the second call
returns the same pipeline and state with no further load. -/
theorem cache_idempotence (load : String → String → Pipeline)
    (st : CacheState) (sc tc : String) (hinv : CacheInv st) :
    CacheInv (get_translation_pipeline load st sc tc).2 ∧
    (get_translation_pipeline load st sc tc).2.loadLog.count (sc, tc) ≤ 1 ∧
    (st.pipelines.lookup (sc, tc) = none →
      (MODEL_MAP.lookup (sc, tc)).isSome = true →
      (get_translation_pipeline load
          (get_translation_pipeline load st sc tc).2 sc tc).2.loadLog.count (sc, tc)
          = st.loadLog.count (sc, tc) + 1 ∧
      get_translation_pipeline load (get_translation_pipeline load st sc tc).2 sc tc
          = get_translation_pipeline load st sc tc) := by
  cases hm : MODEL_MAP.lookup (sc, tc) with
  | none =>
    refine ⟨?_, ?_, ?_⟩
    · simpa [get_translation_pipeline, hm] using hinv
    · simpa [get_translation_pipeline, hm] using (hinv (sc, tc)).1
    · intro _ habs
      simp at habs
  | some m =>
    cases hl : st.pipelines.lookup (sc, tc) with
    | some p =>
      refine ⟨?_, ?_, ?_⟩
      · simpa [get_translation_pipeline, hm, hl] using hinv
      · simpa [get_translation_pipeline, hm, hl] using (hinv (sc, tc)).1
      · intro habs
        cases habs
    | none =>
      have h0 : st.loadLog.count (sc, tc) = 0 := by
        by_contra hc
        have hmem := (hinv (sc, tc)).2 (Nat.pos_of_ne_zero hc)
        rw [hl] at hmem
        simp at hmem
      have hget : get_translation_pipeline load st sc tc =
          (.ok (load ("translation_" ++ sc ++ "_to_" ++ tc) m),
           ⟨((sc, tc), load ("translation_" ++ sc ++ "_to_" ++ tc) m) :: st.pipelines,
            st.loadLog ++ [(sc, tc)]⟩) := by
        simp [get_translation_pipeline, hm, hl]
      have hget₂ : get_translation_pipeline load
          (⟨((sc, tc), load ("translation_" ++ sc ++ "_to_" ++ tc) m) :: st.pipelines,
            st.loadLog ++ [(sc, tc)]⟩ : CacheState) sc tc =
          (.ok (load ("translation_" ++ sc ++ "_to_" ++ tc) m),
           ⟨((sc, tc), load ("translation_" ++ sc ++ "_to_" ++ tc) m) :: st.pipelines,
            st.loadLog ++ [(sc, tc)]⟩) := by
        simp [get_translation_pipeline, hm, List.lookup_cons]
      rw [hget]
      refine ⟨?_, ?_, ?_⟩
      · intro k
        by_cases hk : k = (sc, tc)
        · subst hk
          refine ⟨?_, ?_⟩
          · simp [List.count_append, List.count_cons, h0]
          · intro _
            simp [List.lookup_cons]
        · have hcnt : List.count k (st.loadLog ++ [(sc, tc)]) = List.count k st.loadLog := by
            simp [List.count_append, List.count_cons, beq_false_of_ne (Ne.symm hk)]
          refine ⟨?_, ?_⟩
          · simpa [hcnt] using (hinv k).1
          · intro hpos
            rw [show (⟨((sc, tc), load ("translation_" ++ sc ++ "_to_" ++ tc) m) :: st.pipelines,
                st.loadLog ++ [(sc, tc)]⟩ : CacheState).loadLog = st.loadLog ++ [(sc, tc)] from rfl,
              hcnt] at hpos
            have := (hinv k).2 hpos
            simpa [List.lookup_cons, beq_false_of_ne hk] using this
      · simp [List.count_append, List.count_cons, h0]
      · intro _ _
        refine ⟨?_, ?_⟩
        · rw [hget₂]
          simp [List.count_append, List.count_cons]
        · rw [hget₂]

/-- C3 witness: loading the en→fr pipeline twice from the fresh cache logs
exactly one load, and the second call is a no-op returning the same state. -/
theorem cache_idempotence_witness :
    (get_translation_pipeline loadStub
        (get_translation_pipeline loadStub initCache "en" "fr").2 "en" "fr").2.loadLog.count ("en", "fr")
        = initCache.loadLog.count ("en", "fr") + 1 ∧
    get_translation_pipeline loadStub (get_translation_pipeline loadStub initCache "en" "fr").2 "en" "fr"
        = get_translation_pipeline loadStub initCache "en" "fr" :=
  (cache_idempotence loadStub initCache "en" "fr" cacheInv_init).2.2 (by decide) (by decide)

/-- C10: an unsupported pair makes `get_translation_pipeline` fail before
any cache write, returning the unchanged state; and every call preserves
the invariant that each cached key is a key of `MODEL_MAP`. -/
theorem cache_error_atomicity (load : String → String → Pipeline)
    (st : CacheState) (sc tc : String) :
    (MODEL_MAP.lookup (sc, tc) = none →
      get_translation_pipeline load st sc tc =
        (.error ("Language pair " ++ sc ++ "->" ++ tc ++ " not supported yet."), st)) ∧
    (CacheKeysSupported st →
      CacheKeysSupported (get_translation_pipeline load st sc tc).2) := by
  constructor
  · intro h
    simp [get_translation_pipeline, h]
  · intro hsup
    cases hm : MODEL_MAP.lookup (sc, tc) with
    | none => simpa [get_translation_pipeline, hm] using hsup
    | some m =>
      cases hl : st.pipelines.lookup (sc, tc) with
      | some p => simpa [get_translation_pipeline, hm, hl] using hsup
      | none =>
        intro k hk
        rw [show (get_translation_pipeline load st sc tc).2 =
            (⟨((sc, tc), load ("translation_" ++ sc ++ "_to_" ++ tc) m) :: st.pipelines,
              st.loadLog ++ [(sc, tc)]⟩ : CacheState) from by
          simp [get_translation_pipeline, hm, hl]] at hk
        by_cases hke : k = (sc, tc)
        · subst hke
          simp [hm]
        · have : (st.pipelines.lookup k).isSome = true := by
            simpa [List.lookup_cons, beq_false_of_ne hke] using hk
          exact hsup k this

/-- C10 witness: the unsupported fr→de pair fails with the message and the
fresh cache is returned unchanged. -/
theorem cache_error_atomicity_witness :
    get_translation_pipeline loadStub initCache "fr" "de" =
      (.error ("Language pair " ++ "fr" ++ "->" ++ "de" ++ " not supported yet."), initCache) :=
  (cache_error_atomicity loadStub initCache "fr" "de").1 (by decide)

/-- Under a well-formed cache, `get_translation_pipeline` returns the
state-independent `resolvePipeline` value and keeps the cache well
formed. -/
theorem gp_wf_spec (load : String → String → Pipeline) (st : CacheState)
    (sc tc : String) (hwf : WFCache load st) :
    (get_translation_pipeline load st sc tc).1 = resolvePipeline load sc tc ∧
    WFCache load (get_translation_pipeline load st sc tc).2 := by
  cases hm : MODEL_MAP.lookup (sc, tc) with
  | none =>
    constructor
    · simp [get_translation_pipeline, resolvePipeline, hm]
    · simpa [get_translation_pipeline, hm] using hwf
  | some m =>
    cases hl : st.pipelines.lookup (sc, tc) with
    | some p =>
      obtain ⟨m', hm', hp⟩ := hwf sc tc p hl
      rw [hm] at hm'
      injection hm' with hmm
      subst hmm
      constructor
      · simp [get_translation_pipeline, resolvePipeline, hm, hl, hp]
      · simpa [get_translation_pipeline, hm, hl] using hwf
    | none =>
      constructor
      · simp [get_translation_pipeline, resolvePipeline, hm, hl]
      · intro a b q hq
        rw [show (get_translation_pipeline load st sc tc).2 =
            (⟨((sc, tc), load ("translation_" ++ sc ++ "_to_" ++ tc) m) :: st.pipelines,
              st.loadLog ++ [(sc, tc)]⟩ : CacheState) from by
          simp [get_translation_pipeline, hm, hl]] at hq
        by_cases hab : (a, b) = (sc, tc)
        · obtain ⟨ha, hb⟩ := Prod.mk.injEq .. ▸ hab
          subst ha
          subst hb
          rw [show ((((a, b), load ("translation_" ++ a ++ "_to_" ++ b) m) ::
              st.pipelines).lookup (a, b)) = some (load ("translation_" ++ a ++ "_to_" ++ b) m)
            from by simp [List.lookup_cons]] at hq
          injection hq with hq
          exact ⟨m, hm, hq.symm⟩
        · have : st.pipelines.lookup (a, b) = some q := by
            simpa [List.lookup_cons, beq_false_of_ne hab] using hq
          exact hwf a b q this

/-- Under a well-formed cache, `translate_text` returns the
state-independent `translateResult` value and keeps the cache well
formed. -/
theorem tt_wf_spec (run : Pipeline → String → String)
    (load : String → String → Pipeline) (st : CacheState)
    (text src_lang tgt_lang tone domain : String) (hwf : WFCache load st) :
    (translate_text run load st text src_lang tgt_lang tone domain).1 =
      translateResult run load text src_lang tgt_lang tone domain ∧
    WFCache load (translate_text run load st text src_lang tgt_lang tone domain).2 := by
  unfold translate_text translateResult
  by_cases h1 : pyStrip text = ""
  · simpa [h1] using hwf
  · by_cases h2 : src_lang = tgt_lang
    · simpa [h1, h2] using hwf
    · cases hs : LANG_CODES.lookup src_lang with
      | none => simpa [h1, h2, hs] using hwf
      | some sc =>
        cases ht : LANG_CODES.lookup tgt_lang with
        | none => simpa [h1, h2, hs, ht] using hwf
        | some tc =>
          obtain ⟨hfst, hsnd⟩ := gp_wf_spec load st sc tc hwf
          rcases hg : get_translation_pipeline load st sc tc with ⟨r, st'⟩
          rw [hg] at hfst hsnd
          cases r with
          | error e =>
            refine ⟨?_, ?_⟩
            · simp [h1, h2, hs, ht, hg, ← hfst]
            · simpa [h1, h2, hs, ht, hg] using hsnd
          | ok tr =>
            refine ⟨?_, ?_⟩
            · simp [h1, h2, hs, ht, hg, ← hfst]
            · simpa [h1, h2, hs, ht, hg] using hsnd

/-- C5: whenever `back_translate` succeeds on non-empty text and distinct
language names, its backward component is exactly what `translate_text`
returns for the forward component translated target→source with the
"Neutral"/"General" hints — the caller's tone/domain hints are never
carried into the reverse leg. -/
theorem back_translation_asymmetry (run : Pipeline → String → String)
    (load : String → String → Pipeline) (st : CacheState)
    (text src_lang tgt_lang tone domain f b : String) (st₂ : CacheState)
    (hwf : WFCache load st) (hne : pyStrip text ≠ "") (hdiff : src_lang ≠ tgt_lang)
    (h : back_translate run load st text src_lang tgt_lang tone domain = (.ok (f, b), st₂)) :
    (translate_text run load st f tgt_lang src_lang "Neutral" "General").1 = .ok b := by
  unfold back_translate at h
  simp only [hne, hdiff, if_neg, ite_false] at h
  rcases h1 : translate_text run load st (pyStrip text) src_lang tgt_lang tone domain
    with ⟨r₁, st₁⟩
  rw [h1] at h
  cases r₁ with
  | error e => simp at h
  | ok fwd =>
    dsimp only at h
    rcases h2 : translate_text run load st₁ fwd tgt_lang src_lang "Neutral" "General"
      with ⟨r₂, st₂'⟩
    rw [h2] at h
    cases r₂ with
    | error e => simp at h
    | ok bwd =>
      dsimp only at h
      simp only [Prod.mk.injEq, Except.ok.injEq] at h
      obtain ⟨⟨hf, hb⟩, hst⟩ := h
      subst hf
      subst hb
      have hwf₁ : WFCache load st₁ := by
        have hw := (tt_wf_spec run load st (pyStrip text) src_lang tgt_lang tone
          domain hwf).2
        rw [h1] at hw
        exact hw
      have e1 := (tt_wf_spec run load st₁ fwd tgt_lang src_lang "Neutral" "General" hwf₁).1
      have e2 := (tt_wf_spec run load st fwd tgt_lang src_lang "Neutral" "General" hwf).1
      rw [e2, ← e1, h2]

/-- C5 witness: English→French with Formal/Business hints; the backward
component equals the neutral/general reverse translation of the forward
component. -/
theorem back_translation_asymmetry_witness :
    pyStrip "Hello" ≠ "" ∧ ("English" : String) ≠ "French" ∧
    (translate_text runStub loadStub initCache
        "[Business context, Formal tone in French] Hello" "French" "English"
        "Neutral" "General").1 =
      .ok "[Business context, Formal tone in French] Hello" :=
  ⟨by decide, by decide,
   back_translation_asymmetry runStub loadStub initCache "Hello" "English" "French"
     "Formal" "Business" "[Business context, Formal tone in French] Hello"
     "[Business context, Formal tone in French] Hello"
     ⟨[(("fr", "en"), ⟨"translation_fr_to_en", "Helsinki-NLP/opus-mt-fr-en"⟩),
       (("en", "fr"), ⟨"translation_en_to_fr", "Helsinki-NLP/opus-mt-en-fr"⟩)],
      [("en", "fr"), ("fr", "en")]⟩
     (wfCache_init loadStub) (by decide) (by decide) (by decide)⟩
